import Mathlib

/-!
# Shallow embedding of the pandas-ai agent core

This file embeds the parts of the repository the claims speak about:

* `pandasai/agent/base.py` — the conversation orchestrator: the
  generation/execution retry loops, query processing with its error handler,
  the SQL query router, conversation-state bookkeeping;
* `pandasai/data_loader/semantic_layer_schema.py` — source compatibility and
  the semantic-layer schema validator;
* the error taxonomy of `pandasai.exceptions` as it is observable through the
  files above and `pandasai/helpers/request.py`.

Mutable Python state becomes explicit state passing; exceptions become
`Except`; the external collaborators (the LLM, the code executor, the
regeneration step) become oracles `Nat → Except ErrKind String` giving the
outcome of each successive call, so the retry loops can be analysed for every
possible pattern of failures.
-/

namespace PandasAI

/-- Failure classes of the agent core, following the spec's error taxonomy and
the exception classes imported by `pandasai/agent/base.py` and
`pandasai/helpers/request.py`.  `generic` stands for any other `Exception`
(in particular it models the unbound-local error the `except` handler of
`_process_query` would itself raise, see `process_query`). -/
inductive ErrKind where
  | codeExecutionError
  | invalidLLMOutputType
  | apiKeyError
  | apiCallError
  | maliciousQuery
  | badImport
  | generic
  deriving DecidableEq, Repr

/-! ## Retry loops (`pandasai/agent/base.py`, lines 160-205)

A generation oracle `gen : Nat → Except ErrKind String` gives the outcome of
the `k`-th LLM generation call of the turn: call `0` is the initial
`generate_code`, calls `k ≥ 1` are the successive
`_regenerate_code_after_error` calls.  An execution oracle
`ex : Nat → Except ErrKind String` gives the outcome of the `k`-th execution
attempt (the `execute_code` call together with `_response_parser.parse`).
Each model returns the number of oracle calls made and the final outcome
(`Except.error e` models the loop re-raising `e`). -/

/-- The `while attempts <= max_retries` loop of
`Agent.generate_code_with_retries` (base.py lines 168-184), entered after the
initial `generate_code` failed.  `r` is `max_retries + 1 - attempts` on entry
to an iteration; the branch `r = 0` after a failure models
`attempts > max_retries` re-raising the last error.  Returns how many
regeneration calls were made and the outcome. -/
def genLoop (gen : Nat → Except ErrKind String) :
    Nat → Nat → Nat × Except ErrKind String
  | 0, _ => (0, Except.error ErrKind.generic)
  | r + 1, k =>
    match gen k with
    | Except.ok code => (1, Except.ok code)
    | Except.error e =>
      if r = 0 then (1, Except.error e)
      else
        let p := genLoop gen r (k + 1)
        (p.1 + 1, p.2)

/-- `Agent.generate_code_with_retries` (base.py lines 160-184): one initial
`generate_code` call; on failure, the regeneration loop with budget
`max_retries`.  First component: total number of generation calls made. -/
def generate_code_with_retries (gen : Nat → Except ErrKind String)
    (max_retries : Nat) : Nat × Except ErrKind String :=
  match gen 0 with
  | Except.ok code => (1, Except.ok code)
  | Except.error _ =>
    let p := genLoop gen (max_retries + 1) 1
    (p.1 + 1, p.2)

/-- The body of `Agent.execute_with_retries` (base.py lines 186-205).
`r` is `max_retries + 1 - attempts`; after a failed attempt, `r = 0` models
`attempts > max_retries` re-raising, otherwise `_regenerate_code_after_error`
runs: its own failure is raised from inside the `except` block and therefore
propagates out of the loop uncaught.  First component: number of execution
attempts made. -/
def execLoop (ex regen : Nat → Except ErrKind String) :
    Nat → Nat → Nat × Except ErrKind String
  | 0, _ => (0, Except.error ErrKind.generic)
  | r + 1, k =>
    match ex k with
    | Except.ok result => (1, Except.ok result)
    | Except.error e =>
      if r = 0 then (1, Except.error e)
      else
        match regen k with
        | Except.error re => (1, Except.error re)
        | Except.ok _ =>
          let p := execLoop ex regen r (k + 1)
          (p.1 + 1, p.2)

/-- `Agent.execute_with_retries` (base.py lines 186-205). -/
def execute_with_retries (ex regen : Nat → Except ErrKind String)
    (max_retries : Nat) : Nat × Except ErrKind String :=
  execLoop ex regen (max_retries + 1) 0

/-- Result of `Agent._process_query`: either the parsed response or the
`ErrorResponse(last_code_executed=code, error=...)` object built by
`Agent._handle_exception` (base.py lines 299-304).  The `code` carried is the
local variable `code` of `_process_query`, i.e. the value returned by
`generate_code_with_retries`. -/
inductive ProcessResult where
  | success (value : String)
  | errorResponse (lastCodeExecuted : String) (error : ErrKind)
  deriving DecidableEq, Repr

/-- `Agent._process_query` (base.py lines 260-283).  The `try` block runs
generation then execution; the only handler is `except CodeExecutionError`,
which returns the structured `ErrorResponse`.  Every other exception
propagates to the caller.  If the generation phase itself ends by raising a
`CodeExecutionError`, the handler runs but its reference to the local `code`
is unbound (the assignment `code = ...` never completed), so that path also
raises — modelled as `ErrKind.generic`. -/
def process_query (gen ex regen : Nat → Except ErrKind String)
    (max_retries : Nat) : Except ErrKind ProcessResult :=
  match (generate_code_with_retries gen max_retries).2 with
  | Except.error e =>
    if e = ErrKind.codeExecutionError then Except.error ErrKind.generic
    else Except.error e
  | Except.ok code =>
    match (execute_with_retries ex regen max_retries).2 with
    | Except.ok value => Except.ok (ProcessResult.success value)
    | Except.error e =>
      if e = ErrKind.codeExecutionError then
        Except.ok (ProcessResult.errorResponse code e)
      else Except.error e

/-! ## Correction-prompt classification (`pandasai/agent/base.py`, lines 285-297) -/

/-- The two correction requests `_regenerate_code_after_error` can build:
`get_correct_output_type_error_prompt(state, code, error_trace)` or
`get_correct_error_prompt_for_sql(state, code, error_trace)`. -/
inductive CorrectionPrompt where
  | correctOutputTypeErrorPrompt (code : String) (errorTrace : String)
  | correctErrorPromptForSql (code : String) (errorTrace : String)
  deriving DecidableEq, Repr

/-- The prompt-building classification of `Agent._regenerate_code_after_error`
(base.py lines 285-297): `isinstance(error, InvalidLLMOutputType)` selects the
fix-output-type prompt, everything else the fix-error-given-traceback prompt;
both receive the failing `code` and the captured traceback text. -/
def regenerate_code_after_error (code : String) (error : ErrKind)
    (errorTrace : String) : CorrectionPrompt :=
  match error with
  | ErrKind.invalidLLMOutputType =>
    CorrectionPrompt.correctOutputTypeErrorPrompt code errorTrace
  | _ => CorrectionPrompt.correctErrorPromptForSql code errorTrace

/-! ## Conversation state (`pandasai/agent/base.py`, lines 240-316)

Modelled from the spec: `pandasai/agent/state.py` is not under `src/`; the
spec's data model (section 3) lists the fields of `ConversationState`: the
message history, the most recently generated program text, the most recently
used generation request, the correlation identifier of the turn and the
declared output type.  The operations on it below are embedded from
`base.py`, which is under `src/`. -/

/-- The conversation state.  A memory entry is `(text, is_user)`. -/
structure ConversationState where
  memory : List (String × Bool) := []
  lastCodeGenerated : Option String := none
  lastPromptUsed : Option String := none
  promptId : Option Nat := none
  outputType : Option String := none
  deriving DecidableEq, Repr

/-- `Agent.clear_memory` (base.py lines 240-244): `self._state.memory.clear()`. -/
def clear_memory (s : ConversationState) : ConversationState :=
  { s with memory := [] }

/-- `Agent.start_new_conversation` (base.py lines 254-258): it calls
`clear_memory` and nothing else. -/
def start_new_conversation (s : ConversationState) : ConversationState :=
  clear_memory s

/-- The state transformation `Agent.chat` performs before entering
`_process_query` (base.py lines 83-94): raise if no LLM is configured, then
`start_new_conversation`. -/
def chat_prepare (llmConfigured : Bool) (s : ConversationState) :
    Except String ConversationState :=
  if llmConfigured then Except.ok (start_new_conversation s)
  else Except.error "PandasAI API key does not include LLM credits."

/-- The state transformation `Agent.follow_up` performs before entering
`_process_query` (base.py lines 96-100): none. -/
def follow_up_prepare (s : ConversationState) : ConversationState := s

/-- Property `Agent.last_generated_code` (base.py lines 306-308):
`self._state.last_code_generated`. -/
def last_generated_code (s : ConversationState) : Option String :=
  s.lastCodeGenerated

/-- Property `Agent.last_code_executed` (base.py lines 310-312): it also
returns `self._state.last_code_generated`. -/
def last_code_executed (s : ConversationState) : Option String :=
  s.lastCodeGenerated

/-! ## SQL query routing (`pandasai/agent/base.py`, lines 126-158) -/

/-- What `Agent._execute_sql_query` observes about one dataset of the session:
its declared name (`df.schema.name`), whether it has a `query_builder`
attribute, and its table expression
(`df.query_builder._get_table_expression()`). -/
structure DatasetInfo where
  name : String
  hasQueryBuilder : Bool
  tableExpression : String
  deriving DecidableEq, Repr

/-- The physical executor `_execute_sql_query` ends up calling: either the
delegate `df.execute_sql_query` of a query-builder-backed dataset, or the
shared in-process DuckDB engine. -/
inductive SqlExecutor where
  | delegate (datasetName : String)
  | duckdb
  deriving DecidableEq, Repr

/-- The mutable loop state of `_execute_sql_query`: `table_mapping`,
the names registered into the `DuckDBConnectionManager`, and `df_executor`
(the name of the dataset whose `execute_sql_query` was stored last). -/
structure RouterState where
  tableMapping : List (String × String) := []
  registered : List String := []
  dfExecutor : Option String := none
  deriving DecidableEq, Repr

/-- One iteration of the `for df in self._state.dfs` loop of
`_execute_sql_query` (base.py lines 144-151). -/
def routerStep (st : RouterState) (df : DatasetInfo) : RouterState :=
  if df.hasQueryBuilder then
    { st with
        tableMapping := st.tableMapping ++ [(df.name, df.tableExpression)]
        dfExecutor := some df.name }
  else
    { st with registered := st.registered ++ [df.name] }

/-- `Agent._execute_sql_query` (base.py lines 126-158), up to the choice of
the physical executor: the empty-session error, the loop over the datasets,
and the final dispatch on `df_executor`.  Returns the executor chosen, the
table mapping handed to the SQL rewriter, and the names registered into the
shared DuckDB engine. -/
def execute_sql_query_route (dfs : List DatasetInfo) :
    Except String (SqlExecutor × List (String × String) × List String) :=
  if dfs.isEmpty then
    Except.error "No DataFrames available to register for query execution."
  else
    let st := dfs.foldl routerStep {}
    match st.dfExecutor with
    | some d => Except.ok (SqlExecutor.delegate d, st.tableMapping, st.registered)
    | none => Except.ok (SqlExecutor.duckdb, st.tableMapping, st.registered)

/-! ## Table-name rewriting of generated SQL

Modelled from the spec: `pandasai/core/code_generation/code_cleaning.py`
(`CodeCleaner._replace_table_names`) is not under `src/`; only its unit tests
are (`src/tests/unit_tests/core/code_generation/test_code_cleaning.py`, lines
108-124).  Per the spec (section 4.2 step 4): every referenced table
identifier is replaced by its entry in the `TableMapping`; any referenced
table not present in the mapping is a hard rejection raising
`MaliciousQuery`.  A query is abstracted as its list of fragments, each
either a referenced table identifier or surrounding SQL text. -/

/-- A fragment of a generated SQL query: a referenced table identifier or
plain SQL text. -/
inductive SqlFragment where
  | table (name : String)
  | text (s : String)
  deriving DecidableEq, Repr

/-- The rewrite of one fragment under a mapping, used to state what a
successful rewrite produces: table identifiers go through the mapping, text
is untouched. -/
def mapFragment (allowed : List (String × String)) : SqlFragment → SqlFragment
  | SqlFragment.text s => SqlFragment.text s
  | SqlFragment.table t => SqlFragment.table ((List.lookup t allowed).getD t)

/-- Modelled from the spec: `CodeCleaner._replace_table_names(sql_query,
table_names, allowed_table_names)` — replace each referenced table through
`allowed_table_names`, raising `MaliciousQueryError` for a table absent from
the mapping. -/
def replace_table_names :
    List SqlFragment → List (String × String) → Except ErrKind (List SqlFragment)
  | [], _ => Except.ok []
  | SqlFragment.text s :: rest, allowed =>
    match replace_table_names rest allowed with
    | Except.ok rest2 => Except.ok (SqlFragment.text s :: rest2)
    | Except.error e => Except.error e
  | SqlFragment.table t :: rest, allowed =>
    match List.lookup t allowed with
    | none => Except.error ErrKind.maliciousQuery
    | some repl =>
      match replace_table_names rest allowed with
      | Except.ok rest2 => Except.ok (SqlFragment.table repl :: rest2)
      | Except.error e => Except.error e

/-- The concatenated text of a fragment list. -/
def renderSql (q : List SqlFragment) : String :=
  q.foldl (fun acc f =>
    match f with
    | SqlFragment.table n => acc ++ n
    | SqlFragment.text s => acc ++ s) ""

/-- The query of the unit tests: `SELECT * FROM my_table;` referencing the
table `my_table`. -/
def myTableQuery : List SqlFragment :=
  [SqlFragment.text "SELECT * FROM ", SqlFragment.table "my_table",
   SqlFragment.text ";"]

/-! ## Sources and their compatibility
(`pandasai/data_loader/semantic_layer_schema.py`) -/

/-- `SQLConnectionConfig` (semantic_layer_schema.py lines 25-43): its custom
equality compares the five fields, which derived equality on this structure
does too. -/
structure SQLConnectionConfig where
  host : String
  port : Int
  database : String
  user : String
  password : String
  deriving DecidableEq, Repr

/-- `Source` (semantic_layer_schema.py lines 198-254). -/
structure Source where
  type : String
  path : Option String := none
  connection : Option SQLConnectionConfig := none
  table : Option String := none
  deriving DecidableEq, Repr

/-- Modelled from the spec: `pandasai/constants.py` is not under `src/`; the
spec distinguishes local file-backed source types from remote queryable
source types, and these are the published type lists. -/
def LOCAL_SOURCE_TYPES : List String := ["csv", "parquet"]

/-- Modelled from the spec: see `LOCAL_SOURCE_TYPES`. -/
def REMOTE_SOURCE_TYPES : List String := ["mysql", "postgres", "cockroachdb", "sqlite"]

/-- `Source.is_compatible_source` (semantic_layer_schema.py lines 206-226):
both local, or both remote with equal connections; anything else is
incompatible. -/
def Source.is_compatible_source (s1 s2 : Source) : Bool :=
  if s1.type ∈ LOCAL_SOURCE_TYPES ∧ s2.type ∈ LOCAL_SOURCE_TYPES then true
  else if s1.type ∈ REMOTE_SOURCE_TYPES ∧ s2.type ∈ REMOTE_SOURCE_TYPES then
    decide (s1.connection = s2.connection)
  else false

/-- Modelled from the spec: `BaseQueryBuilder.check_compatible_sources`
(`pandasai/query_builders/base_query_builder.py` is not under `src/`); the
spec requires the session's datasets to "have mutually compatible sources
(all-local or all-remote-with-identical-connection)", i.e. every pair of the
session's sources passes `Source.is_compatible_source`. -/
def check_compatible_sources (sources : List Source) : Bool :=
  sources.all fun s1 => sources.all fun s2 => s1.is_compatible_source s2

/-- The source-compatibility check of `Agent.__init__` (base.py lines 68-73):
when constructed over a list of datasets, raise `ValueError` unless
`check_compatible_sources` accepts their sources.  No other method of the
agent repeats the check. -/
def agent_init_source_check (sources : List Source) : Except String Unit :=
  if check_compatible_sources sources then Except.ok ()
  else Except.error "The sources of these datasets are not compatibles"

/-! ## Semantic-layer schema validation
(`pandasai/data_loader/semantic_layer_schema.py`, lines 270-394) -/

/-- A character matching the character class of the validator's column regex
`[a-zA-Z0-9_]`. -/
def isWordChar (c : Char) : Bool :=
  c.isAlpha || c.isDigit || c = '_'

/-- Split a character list at every dot, like Python `str.split`. -/
def splitOnDotAux : List Char → List Char → List (List Char)
  | [], acc => [acc.reverse]
  | c :: cs, acc =>
    if c = '.' then acc.reverse :: splitOnDotAux cs []
    else splitOnDotAux cs (c :: acc)

/-- Python `s.split(".")`. -/
def splitOnDot (s : String) : List (List Char) :=
  splitOnDotAux s.data []

/-- The anchored regex `^[a-zA-Z0-9_]+\.[a-zA-Z0-9_]+$` of
`_validate_columns_relations` (semantic_layer_schema.py line 334): exactly
two non-empty word-character parts separated by one dot. -/
def is_view_column_name (s : String) : Bool :=
  match splitOnDot s with
  | [a, b] => !a.isEmpty && !b.isEmpty && a.all isWordChar && b.all isWordChar
  | _ => false

/-- Python `column_name.split(".")[0]` (semantic_layer_schema.py lines
342, 362). -/
def tableOfColumnName (s : String) : String :=
  String.mk ((splitOnDot s).headD [])

/-- Modelled from the spec: `validate_underscore_name_format`
(`pandasai/helpers/path.py` is not under `src/`); the validator's message
says the dataset name "must be lowercase and use underscores instead of
spaces", so every character must be a lowercase letter, a digit or an
underscore. -/
def validate_underscore_name_format (name : String) : Bool :=
  name.data.all fun c => c.isLower || c.isDigit || c = '_'

/-- `Column` (semantic_layer_schema.py lines 46-73), restricted to the fields
the schema-level validator reads. -/
structure ColumnM where
  name : String
  type : Option String := none
  expression : Option String := none
  deriving DecidableEq, Repr

/-- `Relation` (semantic_layer_schema.py lines 76-84), restricted to the
fields the schema-level validator reads. -/
structure RelationM where
  from_ : String
  to_ : String
  deriving DecidableEq, Repr

/-- `SemanticLayerSchema` (semantic_layer_schema.py lines 270-301),
restricted to the fields its `validate_schema` model validator reads. -/
structure SemanticLayerSchema where
  name : String
  source : Option Source := none
  view : Option Bool := none
  columns : Option (List ColumnM) := none
  relations : Option (List RelationM) := none
  group_by : Option (List String) := none
  deriving DecidableEq, Repr

/-- Python truthiness of `self.columns` (`Optional[List[Column]]`): `None`
and the empty list are falsy. -/
def columnsTruthy (s : SemanticLayerSchema) : Bool :=
  match s.columns with
  | some (_ :: _) => true
  | _ => false

/-- `SemanticLayerSchema._validate_name` (semantic_layer_schema.py lines
310-314): `if not self.name or not validate_underscore_name_format(self.name)`. -/
def validate_name_field (s : SemanticLayerSchema) : Except String Unit :=
  if s.name = "" ∨ validate_underscore_name_format s.name = false then
    Except.error "Dataset name must be lowercase and use underscores instead of spaces."
  else Except.ok ()

/-- `SemanticLayerSchema._validate_group_by_columns` (semantic_layer_schema.py
lines 316-331): returns early when `group_by` or `columns` is falsy,
otherwise raises at the first column that is aggregated yet grouped, or
neither aggregated nor grouped. -/
def validate_group_by_columns (s : SemanticLayerSchema) : Except String Unit :=
  match s.group_by, s.columns with
  | some (g :: gs), some (c :: cs) =>
    let gb := g :: gs
    let cols := c :: cs
    match cols.find? (fun col =>
        (col.expression.isSome && gb.contains col.name)
          || (!col.expression.isSome && !gb.contains col.name)) with
    | some col =>
      if col.expression.isSome then
        Except.error "Column cannot be in group_by because it has an aggregation expression."
      else
        Except.error "Column must either be in group_by or have an aggregation expression."
    | none => Except.ok ()
  | _, _ => Except.ok ()

/-- `SemanticLayerSchema._validate_columns_relations`
(semantic_layer_schema.py lines 333-394).  Python truthiness: `self.source`
is truthy exactly when present, `self.view` exactly when it is `True`;
Python sets are modelled by `List.eraseDups`. -/
def validate_columns_relations (s : SemanticLayerSchema) : Except String Unit :=
  let columnNames := (s.columns.getD []).map ColumnM.name
  let tablesNamesInColumns := (columnNames.map tableOfColumnName).eraseDups
  if columnNames.length ≠ columnNames.eraseDups.length then
    Except.error "Column names must be unique. Duplicate names found."
  else if s.source.isSome = true ∧ s.view = some true then
    Except.error "Only one of source or view can be defined."
  else if s.source = none ∧ s.view ≠ some true then
    Except.error "Either source or view must be defined."
  else if s.view = some true then
    let relationsList := s.relations.getD []
    let columnNamesInRelations :=
      (relationsList.foldr (fun r acc => r.from_ :: r.to_ :: acc) []).eraseDups
    let tablesNamesInRelations :=
      (columnNamesInRelations.map tableOfColumnName).eraseDups
    if columnsTruthy s = false then
      Except.error "A view must have at least one column defined."
    else if columnNames.all is_view_column_name = false then
      Except.error "All columns in a view must be in the format dataset.column."
    else if columnNamesInRelations.all is_view_column_name = false then
      Except.error "All params from and to in the relations must be in the format dataset.column."
    else if tablesNamesInColumns.filter
        (fun t => !tablesNamesInRelations.contains t) ≠ [] ∧
        1 < tablesNamesInColumns.length then
      Except.error "No relations provided for some tables."
    else Except.ok ()
  else if columnNames.any is_view_column_name = true then
    Except.error "All columns in a table must be in the format column."
  else Except.ok ()

/-- `SemanticLayerSchema.validate_schema` (semantic_layer_schema.py lines
303-308): `_validate_name`, then `_validate_group_by_columns`, then
`_validate_columns_relations`; the first raised error aborts validation. -/
def validate_schema (s : SemanticLayerSchema) : Except String Unit :=
  match validate_name_field s with
  | Except.error e => Except.error e
  | Except.ok _ =>
    match validate_group_by_columns s with
    | Except.error e => Except.error e
    | Except.ok _ => validate_columns_relations s

/-! ## Concrete instances used by witnesses and counterexamples -/

/-- A conversation state as reached after a completed turn: non-empty history
and a recorded last generated code. -/
def populatedState : ConversationState :=
  { memory := [("What is the average gdp?", true)]
    lastCodeGenerated := some "result = dfs[0].mean()"
    lastPromptUsed := some "chat prompt"
    promptId := some 1
    outputType := some "number" }

/-- A local csv-backed source. -/
def csvSource : Source := { type := "csv", path := some "sales.csv" }

/-- A second local source. -/
def parquetSource : Source := { type := "parquet", path := some "customers.parquet" }

/-- A schema defining both `source` and `view` (with `view := some false`,
which Python treats as falsy). -/
def bothDefinedSchema : SemanticLayerSchema :=
  { name := "users"
    source := some { type := "csv", path := some "users.csv" }
    view := some false }

/-- A schema defining `source` only. -/
def sourceOnlySchema : SemanticLayerSchema :=
  { name := "users"
    source := some { type := "csv", path := some "users.csv" } }

/-! ## Helper lemmas about the retry loops -/

/-- The regeneration loop makes at most `r` calls. -/
theorem genLoop_calls_le (gen : Nat → Except ErrKind String) :
    ∀ r k, (genLoop gen r k).1 ≤ r := by
  intro r
  induction r with
  | zero => intro k; simp [genLoop]
  | succ n ih =>
    intro k
    simp only [genLoop]
    cases gen k with
    | ok code => simp
    | error e =>
      by_cases h : n = 0
      · simp [h]
      · simp only [if_neg h]
        exact Nat.succ_le_succ (ih (k + 1))

/-- The execution loop makes at most `r` execution attempts. -/
theorem execLoop_calls_le (ex regen : Nat → Except ErrKind String) :
    ∀ r k, (execLoop ex regen r k).1 ≤ r := by
  intro r
  induction r with
  | zero => intro k; simp [execLoop]
  | succ n ih =>
    intro k
    simp only [execLoop]
    cases ex k with
    | ok result => simp
    | error e =>
      by_cases h : n = 0
      · simp [h]
      · simp only [if_neg h]
        cases regen k with
        | error re => simp
        | ok c =>
          simp only
          exact Nat.succ_le_succ (ih (k + 1))

/-- With every regeneration failing with `e`, the loop makes exactly its
budget of calls and re-raises `e`. -/
theorem genLoop_const_error (e : ErrKind) :
    ∀ r k, genLoop (fun _ => Except.error e) (r + 1) k = (r + 1, Except.error e) := by
  intro r
  induction r with
  | zero => intro k; simp [genLoop]
  | succ n ih =>
    intro k
    show (if n + 1 = 0 then ((1 : Nat), Except.error e)
        else ((genLoop (fun _ => Except.error e) (n + 1) (k + 1)).1 + 1,
          (genLoop (fun _ => Except.error e) (n + 1) (k + 1)).2))
      = (n + 1 + 1, Except.error e)
    rw [if_neg (Nat.succ_ne_zero n), ih (k + 1)]

/-- With every execution attempt failing with `e` and every regeneration
succeeding, the loop makes exactly its budget of attempts and re-raises `e`. -/
theorem execLoop_const_error (e : ErrKind) (code : String) :
    ∀ r k, execLoop (fun _ => Except.error e) (fun _ => Except.ok code) (r + 1) k
      = (r + 1, Except.error e) := by
  intro r
  induction r with
  | zero => intro k; simp [execLoop]
  | succ n ih =>
    intro k
    show (if n + 1 = 0 then ((1 : Nat), Except.error e)
        else ((execLoop (fun _ => Except.error e) (fun _ => Except.ok code)
            (n + 1) (k + 1)).1 + 1,
          (execLoop (fun _ => Except.error e) (fun _ => Except.ok code)
            (n + 1) (k + 1)).2))
      = (n + 1 + 1, Except.error e)
    rw [if_neg (Nat.succ_ne_zero n), ih (k + 1)]

/-! ## C1 — retry budget -/

/-- C1, counterexample to the claim as stated: with `max_retries = 0`, a
failing generation is not immediately terminal — `generate_code_with_retries`
makes a second generation call (one regeneration retry) before re-raising,
so generation is attempted `2 > 0 + 1` times. -/
theorem generation_budget_counterexample :
    generate_code_with_retries (fun _ => Except.error ErrKind.generic) 0
      = (2, Except.error ErrKind.generic) := rfl

/-- C1 (amended): for every configured `max_retries = N` and every pattern of
outcomes, the orchestrator attempts execution at most `N + 1` times, while
generation is attempted at most `N + 2` times (one initial `generate_code`
call plus up to `N + 1` regeneration calls) before the last error is
re-raised. -/
theorem retry_budget_bounds (gen ex regen : Nat → Except ErrKind String)
    (N : Nat) :
    (generate_code_with_retries gen N).1 ≤ N + 2
      ∧ (execute_with_retries ex regen N).1 ≤ N + 1 := by
  constructor
  · simp only [generate_code_with_retries]
    cases gen 0 with
    | ok code => simp
    | error e =>
      simp only
      have h := genLoop_calls_le gen (N + 1) 1
      omega
  · exact execLoop_calls_le ex regen (N + 1) 0

/-! ## C5 — configuration and connectivity errors -/

/-- C5, counterexample to the claim as stated: a `PandasAIApiCallError`
raised while generating is caught by the blanket `except Exception` and
retried — with `max_retries = 1` the agent makes three generation calls (two
regeneration retries) before the error finally propagates, and an
`PandasAIApiKeyError` raised while executing is likewise retried once. -/
theorem api_errors_retried_counterexample :
    generate_code_with_retries (fun _ => Except.error ErrKind.apiCallError) 1
      = (3, Except.error ErrKind.apiCallError)
    ∧ execute_with_retries (fun _ => Except.error ErrKind.apiKeyError)
        (fun _ => Except.ok "code") 1
      = (2, Except.error ErrKind.apiKeyError) := ⟨rfl, rfl⟩

/-- C5 (amended): configuration and connectivity errors raised during the
generation or execution phase are caught by the blanket `except Exception`
handlers and retried like any other error; under a persistent such failure
the loops still make `N + 2` generation calls, respectively `N + 1`
execution attempts, before re-raising the error. -/
theorem api_errors_retried_like_any (N : Nat) :
    generate_code_with_retries (fun _ => Except.error ErrKind.apiCallError) N
      = (N + 2, Except.error ErrKind.apiCallError)
    ∧ execute_with_retries (fun _ => Except.error ErrKind.apiKeyError)
        (fun _ => Except.ok "regenerated") N
      = (N + 1, Except.error ErrKind.apiKeyError) := by
  constructor
  · simp only [generate_code_with_retries]
    rw [genLoop_const_error ErrKind.apiCallError N 1]
  · simp only [execute_with_retries]
    exact execLoop_const_error ErrKind.apiKeyError "regenerated" N 0

/-! ## C2 — terminal failures and the structured error response -/

/-- C2, counterexample to the claim as stated: a query whose generation phase
exhausts the retry budget on a `PandasAIApiCallError` ends in a terminal
failure, yet `_process_query` propagates the exception to the caller instead
of returning a structured error response — only `CodeExecutionError` is
caught. -/
theorem process_query_counterexample :
    process_query (fun _ => Except.error ErrKind.apiCallError)
      (fun _ => Except.ok "result") (fun _ => Except.ok "code") 0
      = Except.error ErrKind.apiCallError := rfl

/-- C2 (amended): a terminal `CodeExecutionError` from the execution phase —
and only that — makes `_process_query` return the structured `ErrorResponse`,
carrying the code the generation phase returned (not the last regenerated
attempt) and the diagnostic; every other terminal failure, including every
terminal failure of the generation phase, propagates to the caller as an
exception. -/
theorem process_query_error_handling (gen ex regen : Nat → Except ErrKind String)
    (N : Nat) :
    (∀ e, (generate_code_with_retries gen N).2 = Except.error e →
      ∃ e2, process_query gen ex regen N = Except.error e2)
    ∧ (∀ code, (generate_code_with_retries gen N).2 = Except.ok code →
        ((execute_with_retries ex regen N).2 = Except.error ErrKind.codeExecutionError →
          process_query gen ex regen N
            = Except.ok (ProcessResult.errorResponse code ErrKind.codeExecutionError))
        ∧ (∀ e, (execute_with_retries ex regen N).2 = Except.error e →
            e ≠ ErrKind.codeExecutionError →
            process_query gen ex regen N = Except.error e)) := by
  constructor
  · intro e he
    by_cases hce : e = ErrKind.codeExecutionError
    · exact ⟨ErrKind.generic, by simp [process_query, he, hce]⟩
    · exact ⟨e, by simp [process_query, he, hce]⟩
  · intro code hg
    constructor
    · intro hx
      simp [process_query, hg, hx]
    · intro e hx hne
      simp [process_query, hg, hx, hne]

/-- C2, witness: with code generated on the first call and every execution
attempt raising `CodeExecutionError` under `max_retries = 0`, the query
returns the structured error response carrying that code. -/
theorem process_query_error_handling_w :
    process_query (fun _ => Except.ok "codeA")
      (fun _ => Except.error ErrKind.codeExecutionError)
      (fun _ => Except.ok "codeB") 0
      = Except.ok (ProcessResult.errorResponse "codeA" ErrKind.codeExecutionError) :=
  ((process_query_error_handling (fun _ => Except.ok "codeA")
      (fun _ => Except.error ErrKind.codeExecutionError)
      (fun _ => Except.ok "codeB") 0).2 "codeA" rfl).1 rfl

/-! ## C7 — chat resets, follow_up does not -/

/-- C7, counterexample to the claim as stated: `chat` does not reset the
`ConversationState` — `start_new_conversation` clears only the message
history, and on a populated state the result still carries the previous
turn's last generated code, last prompt, prompt id and output type, so it is
not the fresh state. -/
theorem chat_reset_counterexample :
    chat_prepare true populatedState
      = Except.ok { populatedState with memory := [] }
    ∧ ({ populatedState with memory := [] } : ConversationState).lastCodeGenerated
      = some "result = dfs[0].mean()"
    ∧ ({ populatedState with memory := [] } : ConversationState)
      ≠ ({} : ConversationState) := by
  refine ⟨rfl, rfl, ?_⟩
  decide

/-- C7 (amended): before entering the cycle, `chat` clears exactly the
message history — every other field of the conversation state (last
generated code, last prompt used, prompt id, output type) is preserved —
while `follow_up` enters the cycle leaving the whole state unchanged. -/
theorem chat_clears_only_memory (s : ConversationState) :
    chat_prepare true s = Except.ok { s with memory := [] }
    ∧ (start_new_conversation s).memory = []
    ∧ (start_new_conversation s).lastCodeGenerated = s.lastCodeGenerated
    ∧ (start_new_conversation s).lastPromptUsed = s.lastPromptUsed
    ∧ (start_new_conversation s).promptId = s.promptId
    ∧ (start_new_conversation s).outputType = s.outputType
    ∧ follow_up_prepare s = s :=
  ⟨rfl, rfl, rfl, rfl, rfl, rfl, rfl⟩

/-! ## C8 — error classification when regenerating -/

/-- C8: `_regenerate_code_after_error` builds the fix-output-type prompt
exactly for `InvalidLLMOutputType`, the fix-error-given-traceback prompt
exactly for every other error, and in all cases the chosen prompt carries
the failing code and the captured diagnostic text. -/
theorem error_classification (code : String) (err : ErrKind) (trace : String) :
    (regenerate_code_after_error code err trace
        = CorrectionPrompt.correctOutputTypeErrorPrompt code trace
      ↔ err = ErrKind.invalidLLMOutputType)
    ∧ (regenerate_code_after_error code err trace
        = CorrectionPrompt.correctErrorPromptForSql code trace
      ↔ err ≠ ErrKind.invalidLLMOutputType)
    ∧ (regenerate_code_after_error code err trace
        = CorrectionPrompt.correctOutputTypeErrorPrompt code trace
      ∨ regenerate_code_after_error code err trace
        = CorrectionPrompt.correctErrorPromptForSql code trace) := by
  cases err <;> simp [regenerate_code_after_error]

/-- C8, witness at concrete inputs: an `InvalidLLMOutputType` selects the
fix-output-type prompt and a `CodeExecutionError` the traceback prompt. -/
theorem error_classification_w :
    regenerate_code_after_error "code" ErrKind.invalidLLMOutputType "trace"
      = CorrectionPrompt.correctOutputTypeErrorPrompt "code" "trace"
    ∧ regenerate_code_after_error "code" ErrKind.codeExecutionError "trace"
      = CorrectionPrompt.correctErrorPromptForSql "code" "trace" :=
  ⟨(error_classification "code" ErrKind.invalidLLMOutputType "trace").1.mpr rfl,
   (error_classification "code" ErrKind.codeExecutionError "trace").2.1.mpr
     (by decide)⟩

/-! ## C9 — last_code_executed equals last_generated_code -/

/-- C9: in every state, the properties `last_code_executed` and
`last_generated_code` return the same value — both read the state's
`last_code_generated` — so code that was generated but rejected before
execution is still reported by `last_code_executed`. -/
theorem last_code_properties_agree (s : ConversationState) :
    last_code_executed s = last_generated_code s := rfl

/-! ## C3 — one physical executor per query -/

/-- After the dataset loop, the names registered into the shared engine are
exactly the declared names of the datasets without a query builder, in
order. -/
theorem foldl_routerStep_registered (dfs : List DatasetInfo) (st : RouterState) :
    (dfs.foldl routerStep st).registered
      = st.registered
        ++ (dfs.filter (fun d => !d.hasQueryBuilder)).map DatasetInfo.name := by
  induction dfs generalizing st with
  | nil => simp
  | cons d rest ih =>
    simp only [List.foldl_cons, List.filter_cons]
    cases hq : d.hasQueryBuilder with
    | true => simp [routerStep, hq, ih]
    | false => simp [routerStep, hq, ih]

/-- After the dataset loop, a delegate executor is recorded exactly when the
initial state had one or some dataset has a query builder. -/
theorem foldl_routerStep_executor (dfs : List DatasetInfo) (st : RouterState) :
    (dfs.foldl routerStep st).dfExecutor.isSome
      = (st.dfExecutor.isSome || dfs.any DatasetInfo.hasQueryBuilder) := by
  induction dfs generalizing st with
  | nil => simp
  | cons d rest ih =>
    simp only [List.foldl_cons, List.any_cons]
    cases hq : d.hasQueryBuilder with
    | true => simp [routerStep, hq, ih]
    | false => simp [routerStep, hq, ih]

/-- C3: for every non-empty session, exactly one physical executor runs the
final query — if some dataset exposes a delegate executor (a
query-builder-backed `execute_sql_query`), the route resolves to that
delegate; only if no dataset exposes one does the route resolve to the
shared in-process DuckDB engine, with every local dataset registered under
its declared name. -/
theorem sql_router_single_executor (dfs : List DatasetInfo) (h : dfs ≠ []) :
    ((∃ df, df ∈ dfs ∧ df.hasQueryBuilder = true) →
      ∃ d tm reg, execute_sql_query_route dfs
        = Except.ok (SqlExecutor.delegate d, tm, reg))
    ∧ ((∀ df, df ∈ dfs → df.hasQueryBuilder = false) →
      ∃ tm, execute_sql_query_route dfs
        = Except.ok (SqlExecutor.duckdb, tm, dfs.map DatasetInfo.name)) := by
  have hne : dfs.isEmpty = false := by
    cases dfs with
    | nil => exact absurd rfl h
    | cons a l => rfl
  constructor
  · rintro ⟨df, hmem, hqb⟩
    have hany : dfs.any DatasetInfo.hasQueryBuilder = true :=
      List.any_eq_true.mpr ⟨df, hmem, hqb⟩
    have hsome : (dfs.foldl routerStep {}).dfExecutor.isSome = true := by
      rw [foldl_routerStep_executor, hany, Bool.or_true]
    obtain ⟨d, hd⟩ := Option.isSome_iff_exists.mp hsome
    refine ⟨d, (dfs.foldl routerStep {}).tableMapping,
      (dfs.foldl routerStep {}).registered, ?_⟩
    simp [execute_sql_query_route, hne, hd]
  · intro hall
    have hany : dfs.any DatasetInfo.hasQueryBuilder = false := by
      cases hq : dfs.any DatasetInfo.hasQueryBuilder with
      | false => rfl
      | true =>
        obtain ⟨df, hmem, hqb⟩ := List.any_eq_true.mp hq
        rw [hall df hmem] at hqb
        exact absurd hqb (by simp)
    have hnone : (dfs.foldl routerStep {}).dfExecutor = none := by
      have hs := foldl_routerStep_executor dfs {}
      rw [hany, Bool.or_false] at hs
      simpa using Option.not_isSome_iff_eq_none.mp (by simp [hs])
    have hfilter : dfs.filter (fun d => !d.hasQueryBuilder) = dfs :=
      List.filter_eq_self.mpr (by intro a ha; simp [hall a ha])
    have hreg : (dfs.foldl routerStep {}).registered = dfs.map DatasetInfo.name := by
      rw [foldl_routerStep_registered, hfilter]
      rfl
    refine ⟨(dfs.foldl routerStep {}).tableMapping, ?_⟩
    simp [execute_sql_query_route, hne, hnone, hreg]

/-- C3, witness: a session with a local dataset and a query-builder-backed
dataset routes to the delegate; a session of two local datasets routes to
the shared engine with both registered. -/
theorem sql_router_single_executor_w :
    (∃ d tm reg, execute_sql_query_route
        [⟨"sales", false, "sales"⟩, ⟨"orders", true, "(SELECT 1)"⟩]
      = Except.ok (SqlExecutor.delegate d, tm, reg))
    ∧ (∃ tm, execute_sql_query_route
        [⟨"sales", false, "sales"⟩, ⟨"customers", false, "customers"⟩]
      = Except.ok (SqlExecutor.duckdb, tm, ["sales", "customers"])) :=
  ⟨(sql_router_single_executor
      [⟨"sales", false, "sales"⟩, ⟨"orders", true, "(SELECT 1)"⟩]
      (by decide)).1 ⟨⟨"orders", true, "(SELECT 1)"⟩, by decide, rfl⟩,
   (sql_router_single_executor
      [⟨"sales", false, "sales"⟩, ⟨"customers", false, "customers"⟩]
      (by decide)).2 (by decide)⟩

/-! ## C4 — table-name rewriting and MaliciousQuery -/

/-- A query referencing a table absent from the mapping is rejected with
`MaliciousQuery`, whatever else it references. -/
theorem replace_table_names_unmapped :
    ∀ (q : List SqlFragment) (allowed : List (String × String)) (t : String),
      SqlFragment.table t ∈ q → List.lookup t allowed = none →
      replace_table_names q allowed = Except.error ErrKind.maliciousQuery := by
  intro q
  induction q with
  | nil => intro allowed t hmem _; exact absurd hmem (List.not_mem_nil _)
  | cons frag rest ih =>
    intro allowed t hmem hlk
    cases frag with
    | text s =>
      have hm : SqlFragment.table t ∈ rest := by
        cases hmem with
        | tail _ hm => exact hm
      simp [replace_table_names, ih allowed t hm hlk]
    | table u =>
      cases hmem with
      | head => simp [replace_table_names, hlk]
      | tail _ hm =>
        cases hlu : List.lookup u allowed with
        | none => simp [replace_table_names, hlu]
        | some repl =>
          simp [replace_table_names, hlu, ih allowed t hm hlk]

/-- When every referenced table is in the mapping, the rewrite succeeds and
maps each table identifier through the mapping, leaving the rest of the
query untouched. -/
theorem replace_table_names_all_mapped :
    ∀ (q : List SqlFragment) (allowed : List (String × String)),
      (∀ t, SqlFragment.table t ∈ q → (List.lookup t allowed).isSome = true) →
      replace_table_names q allowed = Except.ok (q.map (mapFragment allowed)) := by
  intro q
  induction q with
  | nil => intro allowed _; rfl
  | cons frag rest ih =>
    intro allowed hall
    have hrest := ih allowed fun t ht => hall t (List.mem_cons_of_mem _ ht)
    cases frag with
    | text s => simp [replace_table_names, hrest, mapFragment]
    | table u =>
      have hu : (List.lookup u allowed).isSome = true :=
        hall u (List.mem_cons_self _ _)
      obtain ⟨repl, hrepl⟩ := Option.isSome_iff_exists.mp hu
      simp [replace_table_names, hrepl, hrest, mapFragment]

/-- C4: rewriting maps every referenced table identifier through the
mapping and raises `MaliciousQuery` for any referenced table absent from it;
under the identity mapping the query `SELECT * FROM my_table;` is rewritten
to itself, and under the empty mapping the same query raises
`MaliciousQuery`. -/
theorem table_rewrite_guard (q : List SqlFragment)
    (allowed : List (String × String)) :
    ((∃ t, SqlFragment.table t ∈ q ∧ List.lookup t allowed = none) →
      replace_table_names q allowed = Except.error ErrKind.maliciousQuery)
    ∧ ((∀ t, SqlFragment.table t ∈ q → (List.lookup t allowed).isSome = true) →
      replace_table_names q allowed = Except.ok (q.map (mapFragment allowed)))
    ∧ replace_table_names myTableQuery [("my_table", "my_table")]
      = Except.ok myTableQuery
    ∧ renderSql myTableQuery = "SELECT * FROM my_table;"
    ∧ replace_table_names myTableQuery []
      = Except.error ErrKind.maliciousQuery := by
  refine ⟨?_, ?_, rfl, rfl, rfl⟩
  · rintro ⟨t, hmem, hlk⟩
    exact replace_table_names_unmapped q allowed t hmem hlk
  · intro hall
    exact replace_table_names_all_mapped q allowed hall

/-- C4, witness: a query referencing the undeclared table `orders` is
rejected under the empty mapping. -/
theorem table_rewrite_guard_w :
    replace_table_names [SqlFragment.table "orders"] []
      = Except.error ErrKind.maliciousQuery :=
  (table_rewrite_guard [SqlFragment.table "orders"] []).1
    ⟨"orders", by simp, rfl⟩

/-! ## C6 — source compatibility at session start -/

/-- C6: construction over a list of datasets succeeds exactly when every
pair of their sources is mutually compatible, and two sources are compatible
exactly when both are local source types, or both are remote source types
with equal connections. -/
theorem source_compatibility_check (sources : List Source) :
    (agent_init_source_check sources = Except.ok () ↔
      ∀ s1, s1 ∈ sources → ∀ s2, s2 ∈ sources →
        s1.is_compatible_source s2 = true)
    ∧ (∀ s1 s2 : Source, s1.is_compatible_source s2 = true ↔
        ((s1.type ∈ LOCAL_SOURCE_TYPES ∧ s2.type ∈ LOCAL_SOURCE_TYPES)
          ∨ (s1.type ∈ REMOTE_SOURCE_TYPES ∧ s2.type ∈ REMOTE_SOURCE_TYPES
              ∧ s1.connection = s2.connection))) := by
  constructor
  · have h1 : agent_init_source_check sources = Except.ok ()
        ↔ check_compatible_sources sources = true := by
      unfold agent_init_source_check
      split
      · next hc => simp [hc]
      · next hc => simp [hc]
    rw [h1]
    simp only [check_compatible_sources, List.all_eq_true]
  · intro s1 s2
    unfold Source.is_compatible_source
    by_cases hl : s1.type ∈ LOCAL_SOURCE_TYPES ∧ s2.type ∈ LOCAL_SOURCE_TYPES
    · simp [hl]
    · by_cases hr : s1.type ∈ REMOTE_SOURCE_TYPES ∧ s2.type ∈ REMOTE_SOURCE_TYPES
      · simp [hl, hr.1, hr.2]
      · simp only [if_neg hl, if_neg hr]
        constructor
        · intro hfalse; exact absurd hfalse (by simp)
        · rintro (hcase | ⟨ha, hb, _⟩)
          · exact absurd hcase hl
          · exact absurd ⟨ha, hb⟩ hr

/-- C6, witness: two local datasets (a csv source and a parquet source) pass
the construction-time compatibility check. -/
theorem source_compatibility_check_w :
    agent_init_source_check [csvSource, parquetSource] = Except.ok () :=
  (source_compatibility_check [csvSource, parquetSource]).1.mpr (by decide)

/-! ## C10 — exactly one of source and view -/

/-- C10, counterexample to the claim as stated: a schema defining both
`source` and `view` (with `view = False`) passes validation, because the
validator tests Python truthiness rather than definedness — `view = False`
counts as absent. -/
theorem schema_both_defined_accepted :
    validate_schema bothDefinedSchema = Except.ok ()
    ∧ bothDefinedSchema.source.isSome = true
    ∧ bothDefinedSchema.view.isSome = true := ⟨rfl, rfl, rfl⟩

/-- C10 (amended): validation succeeds only if exactly one of `source` and
`view` is truthy — either `source` is defined and `view` is not `True`, or
`source` is undefined and `view` is `True`; defining both with `view = True`
raises, having neither `source` nor `view = True` raises, and `view = False`
behaves like an undefined `view`. -/
theorem schema_source_view_truthiness (s : SemanticLayerSchema)
    (h : validate_schema s = Except.ok ()) :
    (s.source.isSome = true ∧ s.view ≠ some true)
    ∨ (s.source = none ∧ s.view = some true) := by
  have hv : validate_columns_relations s = Except.ok () := by
    cases h1 : validate_name_field s with
    | error e => simp [validate_schema, h1] at h
    | ok u =>
      cases h2 : validate_group_by_columns s with
      | error e => simp [validate_schema, h1, h2] at h
      | ok u2 => simpa [validate_schema, h1, h2] using h
  simp only [validate_columns_relations] at hv
  split at hv
  · exact absurd hv (by simp)
  · split at hv
    · exact absurd hv (by simp)
    · next h2 =>
      split at hv
      · exact absurd hv (by simp)
      · next h3 =>
        cases hsrc : s.source with
        | none =>
          right
          refine ⟨rfl, ?_⟩
          by_contra hne
          exact h3 ⟨hsrc, hne⟩
        | some v =>
          left
          refine ⟨by simp [hsrc], ?_⟩
          intro hview
          exact h2 ⟨by simp [hsrc], hview⟩

/-- C10, witness: a schema with `source` defined and no `view` validates,
and indeed has exactly one of the two truthy. -/
theorem schema_source_view_truthiness_w :
    (sourceOnlySchema.source.isSome = true ∧ sourceOnlySchema.view ≠ some true)
    ∨ (sourceOnlySchema.source = none ∧ sourceOnlySchema.view = some true) :=
  schema_source_view_truthiness sourceOnlySchema rfl

end PandasAI
